import Mathlib

/-!
Verification of the single-reviewer screening form (`streamlit_app.py`).

The development shallowly embeds the synchronization core of the app:
prompt loading (`load_prompts`), snapshot fetching (`fetch_sheet` with its
numeric coercion, unreviewed filter and sort by `_row`), the save client
(`save_row`), the save-button handler (validation, cache invalidation),
the AI-reveal condition, and prev/next navigation.

Spreadsheet cells arriving in the JSON rows are modelled by `Cell`:
`num` covers every value `pd.to_numeric` accepts (numbers and numeric
strings), `str` covers other text, `none_` covers missing values (NaN).
-/

namespace ScreeningApp

/-- A spreadsheet cell as delivered in a JSON row. -/
inductive Cell where
  | num (n : Int)
  | str (s : String)
  | none_
deriving DecidableEq

/-- Python `str(cell)` / pandas `astype(str)`: numbers print, NaN prints as `nan`. -/
def pyStr : Cell → String
  | .num n => toString n
  | .str s => s
  | .none_ => "nan"

/-- Pandas `pd.to_numeric(errors="coerce").fillna(0).astype(int)`: numeric cells keep
their value, non-numeric text and missing values coerce to 0. -/
def coerceInt : Cell → Int
  | .num n => n
  | .str _ => 0
  | .none_ => 0

/-- One raw record of the remote response `js["rows"]`. -/
structure RawRecord where
  title : Cell
  abstract : Cell
  sr : Cell
  decision : Cell
  ai : Cell
  aiJust : Cell
  row : Cell
deriving DecidableEq

/-- One record of a fetched snapshot, after the coercions in `fetch_sheet`
(lines 63-68): `_row` and `SR` numeric, text fields as Python strings. -/
structure Record where
  rowId : Int
  sr : Int
  title : String
  abstract : String
  decision : String
  ai : String
  aiJust : String
deriving DecidableEq

/-- The per-row normalization performed by `fetch_sheet`. -/
def normalize (r : RawRecord) : Record :=
  ⟨coerceInt r.row, coerceInt r.sr, pyStr r.title, pyStr r.abstract,
   pyStr r.decision, pyStr r.ai, pyStr r.aiJust⟩

/-- The client-side unreviewed filter (line 71):
`Poenaru_Decision` as a string, stripped, compared with the empty string. -/
def unreviewedP (r : Record) : Bool := r.decision.trim == ""

/-- Insert a record into a list sorted by `rowId`, keeping it sorted
(stable: ties keep the existing element first). -/
def insertByRow (r : Record) : List Record → List Record
  | [] => [r]
  | x :: xs => if r.rowId ≤ x.rowId then r :: x :: xs else x :: insertByRow r xs

/-- Pandas `df.sort_values("_row")`: sort the snapshot by `rowId` ascending. -/
def sortByRow (l : List Record) : List Record := l.foldr insertByRow []

/-- Source `fetch_sheet(only_unreviewed)` (lines 54-73) applied to the `rows` list of a
successful response envelope: normalize every row, optionally keep only the
unreviewed ones, and sort by `_row` ascending. -/
def fetch_sheet (onlyUnreviewed : Bool) (rows : List RawRecord) : List Record :=
  let recs := rows.map normalize
  let recs := if onlyUnreviewed then recs.filter unreviewedP else recs
  sortByRow recs

/-- The row identifiers of a snapshot, in order. -/
def rowIds (l : List Record) : List Int := l.map Record.rowId

/-- A parsed JSON value, as produced by `r.json()`. -/
inductive Json where
  | null
  | bool (b : Bool)
  | num (n : Int)
  | str (s : String)
  | arr (xs : List Json)
  | obj (fields : List (String × Json))

/-- Python truthiness, as applied by `bool(...)`. -/
def Json.truthy : Json → Bool
  | .null => false
  | .bool b => b
  | .num n => n != 0
  | .str s => s != ""
  | .arr xs => !xs.isEmpty
  | .obj fs => !fs.isEmpty

/-- Outcome of `requests.post(...)` followed by `r.json()`: either some
exception was raised (network failure, timeout, malformed JSON body), or a
parsed JSON value was obtained. -/
inductive HttpResult where
  | exn
  | ok (js : Json)

/-- Source `save_row` (lines 78-90): inside the `try`, the response body is parsed and
`bool(js.get("ok"))` is returned; `js.get` on a non-dict raises, and every
exception is caught and turned into `False`. -/
def save_row (resp : HttpResult) : Bool :=
  match resp with
  | .exn => false
  | .ok js =>
    match js with
    | .obj fs =>
      match fs.lookup "ok" with
      | some v => v.truthy
      | none => false
    | _ => false

/-- The `ok` field of the response envelope, when the call returned a JSON
object carrying one. -/
def okField : HttpResult → Option Json
  | .exn => none
  | .ok (.obj fs) => fs.lookup "ok"
  | .ok _ => none

/-- The `st.cache_data` memo of `fetch_sheet`, one entry per value of the
`only_unreviewed` argument. -/
structure Cache where
  allRows : Option (List Record)
  unreviewedRows : Option (List Record)
deriving DecidableEq

/-- Effect of `fetch_sheet.clear()`: every cached entry is dropped. -/
def Cache.cleared : Cache := ⟨none, none⟩

/-- The cache entry consulted for a given filter flag. -/
def Cache.entry (c : Cache) (onlyUnreviewed : Bool) : Option (List Record) :=
  if onlyUnreviewed then c.unreviewedRows else c.allRows

/-- Serving a read through the cache: a present entry is returned as-is, a
missing entry forces a fresh fetch. -/
def readThrough (c : Cache) (onlyUnreviewed : Bool) (fresh : List Record) :
    List Record :=
  (c.entry onlyUnreviewed).getD fresh

/-- The payload built by the save button handler (lines 330-333): exactly the
decision and the `Reviewed_At` timestamp. -/
def savePayload (decision ts : String) : List (String × String) :=
  [("Poenaru_Decision", decision), ("Reviewed_At", ts)]

/-- User-visible feedback emitted by the save button handler. -/
inductive SaveFeedback where
  | warnSelect
  | savedOk
  | savedFail
deriving DecidableEq

/-- Result of one click of the save button: the cache afterwards, the feedback
shown, and the network writes issued during the click. -/
structure SaveOutcome where
  cache : Cache
  feedback : SaveFeedback
  writes : List (Int × List (String × String))
deriving DecidableEq

/-- The save button handler (lines 326-340): an empty decision only warns; a
non-empty decision is posted via `save_row`, and on a `True` result the whole
`fetch_sheet` cache is cleared, while on `False` nothing is invalidated.
`remoteOk` is the value `save_row` returns for the issued write. -/
def save_button_handler (decision ts : String) (sheetRow : Int)
    (remoteOk : Bool) (cache : Cache) : SaveOutcome :=
  if decision == "" then
    ⟨cache, .warnSelect, []⟩
  else if remoteOk then
    ⟨Cache.cleared, .savedOk, [(sheetRow, savePayload decision ts)]⟩
  else
    ⟨cache, .savedFail, [(sheetRow, savePayload decision ts)]⟩

/-- Modelled from the spec: the remote row store applies a write with partial
update semantics — only supplied fields are changed, omitted fields retain
their prior value (the store itself is an external HTTP collaborator, not part
of this repository). -/
def applyFields (row : String → String) (fields : List (String × String)) :
    String → String :=
  fun f => ((fields.lookup f).getD (row f))

/-- Modelled from the spec: the remote store applies a batch of row writes in
order, each with partial-update semantics. -/
def applyWrites (store : Int → String → String)
    (ws : List (Int × List (String × String))) : Int → String → String :=
  ws.foldl (fun s w => fun i => if i = w.1 then applyFields (s i) w.2 else s i)
    store

/-- Source `decision_val` (line 152): the stored decision of the current row,
converted to a string and stripped. -/
def decision_val (r : Record) : String := r.decision.trim

/-- The decision selector options `dec_opts` (line 318). -/
def dec_opts : List String := ["", "Yes", "No"]

/-- The AI-panel reveal condition (line 343):
`decision_val and decision_val in ["Yes", "No"]`. -/
def ai_panel_shown (r : Record) : Bool :=
  decision_val r != "" && ["Yes", "No"].contains (decision_val r)

/-- Pandas `df.iloc[pos]`: positional access, raising `IndexError` out of range. -/
def iloc (df : List Record) (pos : Nat) : Except String Record :=
  if h : pos < df.length then .ok (df.get ⟨pos, h⟩) else .error "IndexError"

/-- What one render pass does with the current cursor. -/
inductive RenderOutcome where
  | allDone
  | page (r : Record)
  | crash (msg : String)
deriving DecidableEq

/-- The row-selection phase of a render pass (lines 119-145): an empty snapshot
stops cleanly with the completion banner; otherwise the persisted
`st.session_state.pos` — never clamped to the new snapshot — is used directly
in `df.iloc[pos]`. -/
def select_current (df : List Record) (pos : Nat) : RenderOutcome :=
  if df.length = 0 then .allDone
  else
    match iloc df pos with
    | .ok r => .page r
    | .error e => .crash e

/-- Source `prev_disabled` (line 466). -/
def prev_disabled (pos : Nat) : Bool := pos == 0

/-- Source `next_disabled` (line 484). -/
def next_disabled (pos total : Nat) : Bool := decide (pos ≥ total - 1)

/-- One click of the Prev button (lines 465-469): disabled at the left bound,
otherwise moves the cursor back one step. -/
def clickPrev (pos : Nat) : Nat :=
  if prev_disabled pos then pos else pos - 1

/-- One click of the Next button (lines 483-487): disabled at the right bound,
otherwise moves the cursor forward one step. -/
def clickNext (pos total : Nat) : Nat :=
  if next_disabled pos total then pos else pos + 1

/-- The local prompts file as read by pandas: its column names and its data
rows, each row carrying the `SR` cell and the `Prompt` cell. -/
structure PromptsCsv where
  columns : List String
  rows : List (Cell × Cell)
deriving DecidableEq

/-- The entries of the prompt dictionary comprehension (line 49), in file
order: `SR` coerced to an integer, `Prompt` via `str(...)`. -/
def promptsEntries (rows : List (Cell × Cell)) : List (Int × String) :=
  rows.map (fun rc => (coerceInt rc.1, pyStr rc.2))

/-- A Python dict built from a sequence of key-value pairs: a later binding of
the same key overwrites an earlier one. -/
def dictOfEntries (es : List (Int × String)) : Int → Option String :=
  es.foldl (fun m e => fun k => if k = e.1 then some e.2 else m k)
    (fun _ => none)

/-- Source `load_prompts` (lines 38-49): missing `SR` or `Prompt` column is fatal
(`st.error` then `st.stop`); otherwise the prompt map is built with numeric
key coercion and last-write-wins on colliding keys. -/
def load_prompts (t : PromptsCsv) : Except String (Int → Option String) :=
  if t.columns.contains "SR" && t.columns.contains "Prompt" then
    .ok (dictOfEntries (promptsEntries t.rows))
  else
    .error "prompts.csv must have columns: SR, Prompt"

/-- Source `prompts_map.get(sr_val, "")` (line 149): guidance lookup with empty-string
default. -/
def guidance_for (m : Int → Option String) (sr : Int) : String := (m sr).getD ""

/-! Helper lemmas about the snapshot sort. -/

theorem insertByRow_perm (r : Record) (l : List Record) :
    List.Perm (insertByRow r l) (r :: l) := by
  induction l with
  | nil => simp [insertByRow]
  | cons x xs ih =>
    by_cases hle : r.rowId ≤ x.rowId
    · simp [insertByRow, hle]
    · simp only [insertByRow, if_neg hle]
      exact (ih.cons x).trans (List.Perm.swap r x xs)

theorem sortByRow_perm (l : List Record) : List.Perm (sortByRow l) l := by
  induction l with
  | nil => simp [sortByRow]
  | cons x xs ih =>
    exact (insertByRow_perm x (sortByRow xs)).trans (ih.cons x)

theorem sorted_insertByRow (r : Record) {l : List Record}
    (h : l.Pairwise (fun a b => a.rowId ≤ b.rowId)) :
    (insertByRow r l).Pairwise (fun a b => a.rowId ≤ b.rowId) := by
  induction l with
  | nil => simp [insertByRow]
  | cons x xs ih =>
    rw [List.pairwise_cons] at h
    by_cases hle : r.rowId ≤ x.rowId
    · simp only [insertByRow, if_pos hle]
      refine List.pairwise_cons.mpr ⟨?_, List.pairwise_cons.mpr ⟨h.1, h.2⟩⟩
      intro y hy
      rcases List.mem_cons.mp hy with rfl | hy
      · exact hle
      · exact le_trans hle (h.1 y hy)
    · simp only [insertByRow, if_neg hle]
      refine List.pairwise_cons.mpr ⟨?_, ih h.2⟩
      intro y hy
      rcases List.mem_cons.mp ((insertByRow_perm r xs).mem_iff.mp hy) with
        rfl | hy
      · exact le_of_not_le hle
      · exact h.1 y hy

theorem sorted_sortByRow (l : List Record) :
    (sortByRow l).Pairwise (fun a b => a.rowId ≤ b.rowId) := by
  induction l with
  | nil => simp [sortByRow]
  | cons x xs ih => exact sorted_insertByRow x ih

theorem insertByRow_eq_cons {r : Record} {l : List Record}
    (h : ∀ y ∈ l, r.rowId ≤ y.rowId) : insertByRow r l = r :: l := by
  cases l with
  | nil => rfl
  | cons x xs => simp [insertByRow, h x (List.mem_cons_self x xs)]

theorem filter_insertByRow (p : Record → Bool) (x : Record) :
    ∀ {s : List Record}, s.Pairwise (fun a b => a.rowId ≤ b.rowId) →
    (insertByRow x s).filter p =
      if p x then insertByRow x (s.filter p) else s.filter p := by
  intro s
  induction s with
  | nil =>
    intro _
    cases hpx : p x <;> simp [insertByRow, hpx]
  | cons y ys ih =>
    intro hs
    rw [List.pairwise_cons] at hs
    by_cases hxy : x.rowId ≤ y.rowId
    · simp only [insertByRow, if_pos hxy]
      cases hpx : p x
      · simp [List.filter_cons, hpx]
      · have hfront : ∀ z ∈ (y :: ys).filter p, x.rowId ≤ z.rowId := by
          intro z hz
          have hz2 := List.mem_of_mem_filter hz
          rcases List.mem_cons.mp hz2 with rfl | hz3
          · exact hxy
          · exact le_trans hxy (hs.1 z hz3)
        rw [insertByRow_eq_cons hfront]
        simp [List.filter_cons, hpx]
    · simp only [insertByRow, if_neg hxy]
      have ihys := ih hs.2
      rw [List.filter_cons, ihys, List.filter_cons]
      cases hpx : p x <;> cases hpy : p y <;>
        simp [hpx, hpy, insertByRow, hxy]

theorem filter_sortByRow (p : Record → Bool) (l : List Record) :
    (sortByRow l).filter p = sortByRow (l.filter p) := by
  induction l with
  | nil => rfl
  | cons x xs ih =>
    have hstep : sortByRow (x :: xs) = insertByRow x (sortByRow xs) := rfl
    rw [hstep, filter_insertByRow p x (sorted_sortByRow xs), ih,
      List.filter_cons]
    cases hpx : p x <;> simp [sortByRow]

/-- Claim C1: `save_row` returns true only when the HTTP response envelope has
`ok == true` (for well-typed envelopes whose `ok` field, when present, is a
boolean), and every exception raised during the request or response parsing is
caught and turned into a `false` result instead of propagating. -/
theorem save_row_ok_iff (resp : HttpResult)
    (h : ∀ v, okField resp = some v → ∃ b, v = Json.bool b) :
    (save_row resp = true ↔ okField resp = some (Json.bool true)) ∧
    (resp = HttpResult.exn → save_row resp = false) := by
  constructor
  · cases resp with
    | exn => simp [save_row, okField]
    | ok js =>
      cases js with
      | obj fs =>
        simp only [save_row, okField]
        cases hlk : fs.lookup "ok" with
        | none => simp
        | some v =>
          obtain ⟨b, rfl⟩ := h v (by simp [okField, hlk])
          cases b <;> simp [Json.truthy]
      | null => simp [save_row, okField]
      | bool b => simp [save_row, okField]
      | num n => simp [save_row, okField]
      | str s => simp [save_row, okField]
      | arr xs => simp [save_row, okField]
  · intro hr
    subst hr
    rfl

theorem save_row_ok_iff_witness :
    (save_row (HttpResult.ok (Json.obj [("ok", Json.bool true)])) = true ↔
      okField (HttpResult.ok (Json.obj [("ok", Json.bool true)])) =
        some (Json.bool true)) ∧
    (HttpResult.ok (Json.obj [("ok", Json.bool true)]) = HttpResult.exn →
      save_row (HttpResult.ok (Json.obj [("ok", Json.bool true)])) = false) :=
  save_row_ok_iff (HttpResult.ok (Json.obj [("ok", Json.bool true)]))
    (fun v hv =>
      have h2 : some (Json.bool true) = some v := hv
      ⟨true, (Option.some.inj h2).symm⟩)

/-- Claim C2: after a save that returns true, the save button handler clears
the entire `fetch_sheet` cache (both entries), so the next read under either
filter flag is forced to re-fetch; after a save that returns false the cache
is left exactly as it was. -/
theorem save_success_clears_cache (d ts : String) (row : Int) (res : Bool)
    (c : Cache) (hd : d ≠ "") :
    (res = true →
      (save_button_handler d ts row res c).cache = Cache.cleared ∧
      ∀ flag fresh,
        readThrough (save_button_handler d ts row res c).cache flag fresh =
          fresh) ∧
    (res = false → (save_button_handler d ts row res c).cache = c) := by
  have hd2 : (d == "") = false := beq_eq_false_iff_ne.mpr hd
  constructor
  · intro hres
    subst hres
    constructor
    · simp [save_button_handler, hd2]
    · intro flag fresh
      cases flag <;>
        simp [save_button_handler, hd2, readThrough, Cache.entry, Cache.cleared]
  · intro hres
    subst hres
    simp [save_button_handler, hd2]

theorem save_success_clears_cache_witness :
    ((true = true →
      (save_button_handler "Yes" "2024-01-01 10:00:00" 7 true
        ⟨some [], some []⟩).cache = Cache.cleared ∧
      ∀ flag fresh,
        readThrough (save_button_handler "Yes" "2024-01-01 10:00:00" 7 true
          ⟨some [], some []⟩).cache flag fresh = fresh) ∧
    (true = false →
      (save_button_handler "Yes" "2024-01-01 10:00:00" 7 true
        ⟨some [], some []⟩).cache = ⟨some [], some []⟩)) :=
  save_success_clears_cache "Yes" "2024-01-01 10:00:00" 7 true
    ⟨some [], some []⟩ (by decide)

/-- Claim C5 (code evaluated at the failing input): after a filtered re-fetch
shrinks the snapshot to one record while the persisted cursor is still 1, the
row-selection phase raises `IndexError` instead of falling back to index 0 —
`st.session_state.pos` is never clamped before `df.iloc[pos]` on line 130. -/
theorem stale_pos_render_crashes :
    select_current [⟨10, 1, "t", "a", "Yes", "1", "j"⟩] 1 =
      RenderOutcome.crash "IndexError" := rfl

/-- Claim C7: triggering the save action with an empty decision only produces
the warning: the handler issues no network write, leaves the cache untouched,
and the remote store is unchanged by the (empty) set of issued writes. -/
theorem empty_decision_warns_no_write (ts : String) (row : Int) (res : Bool)
    (c : Cache) :
    save_button_handler "" ts row res c = ⟨c, SaveFeedback.warnSelect, []⟩ ∧
    (save_button_handler "" ts row res c).writes = [] ∧
    ∀ store : Int → String → String,
      applyWrites store (save_button_handler "" ts row res c).writes =
        store := by
  have h : save_button_handler "" ts row res c =
      ⟨c, SaveFeedback.warnSelect, []⟩ := rfl
  exact ⟨h, by rw [h], fun store => by rw [h]; rfl⟩

theorem empty_decision_warns_no_write_witness :
    save_button_handler "" "2024-01-01 10:00:00" 7 true ⟨some [], none⟩ =
      ⟨⟨some [], none⟩, SaveFeedback.warnSelect, []⟩ ∧
    (save_button_handler "" "2024-01-01 10:00:00" 7 true
      ⟨some [], none⟩).writes = [] ∧
    ∀ store : Int → String → String,
      applyWrites store (save_button_handler "" "2024-01-01 10:00:00" 7 true
        ⟨some [], none⟩).writes = store :=
  empty_decision_warns_no_write "2024-01-01 10:00:00" 7 true ⟨some [], none⟩

/-- Claim C6: the AI panel is rendered if and only if the stored
decision, trimmed, is one of the selectable decisions `Yes`/`No`; in
particular, under the closed-set invariant that the stored decision is one of
the selector options, any persisted non-empty decision is by itself sufficient
to show the panel on reload. -/
theorem ai_panel_iff_decision (r : Record) :
    (ai_panel_shown r = true ↔ decision_val r ∈ ["Yes", "No"]) ∧
    (decision_val r ∈ dec_opts → decision_val r ≠ "" →
      ai_panel_shown r = true) := by
  have hiff : ai_panel_shown r = true ↔ decision_val r ∈ ["Yes", "No"] := by
    constructor
    · intro h
      simp only [ai_panel_shown, Bool.and_eq_true] at h
      exact List.elem_iff.mp h.2
    · intro h
      have hne : decision_val r ≠ "" := by
        rcases List.mem_cons.mp h with heq | h2
        · rw [heq]
          decide
        · rw [List.mem_singleton.mp h2]
          decide
      simp only [ai_panel_shown, Bool.and_eq_true]
      exact ⟨bne_iff_ne.mpr hne, List.elem_iff.mpr h⟩
  refine ⟨hiff, ?_⟩
  intro hmem hne
  apply hiff.mpr
  rcases List.mem_cons.mp hmem with heq | h2
  · exact absurd heq hne
  · exact h2

theorem ai_panel_iff_decision_witness :
    (ai_panel_shown ⟨10, 1, "t", "a", " Yes ", "1", "j"⟩ = true ↔
      decision_val ⟨10, 1, "t", "a", " Yes ", "1", "j"⟩ ∈ ["Yes", "No"]) ∧
    (decision_val ⟨10, 1, "t", "a", " Yes ", "1", "j"⟩ ∈ dec_opts →
      decision_val ⟨10, 1, "t", "a", " Yes ", "1", "j"⟩ ≠ "" →
      ai_panel_shown ⟨10, 1, "t", "a", " Yes ", "1", "j"⟩ = true) :=
  ai_panel_iff_decision ⟨10, 1, "t", "a", " Yes ", "1", "j"⟩

/-- Claim C8: on a non-empty snapshot, clicking Prev at index 0 or Next at the
last index is a no-op (the buttons are disabled at the bounds, with no
wraparound), and both clicks preserve the cursor invariant
`0 ≤ pos < total`. -/
theorem nav_clamped_no_wrap (pos total : Nat) (h0 : 0 < total)
    (h1 : pos < total) :
    (pos = 0 → clickPrev pos = pos) ∧
    (pos = total - 1 → clickNext pos total = pos) ∧
    clickPrev pos < total ∧ clickNext pos total < total := by
  refine ⟨?_, ?_, ?_, ?_⟩
  · intro h
    subst h
    rfl
  · intro h
    have hge : pos ≥ total - 1 := by omega
    simp [clickNext, next_disabled, hge]
  · by_cases hp : pos = 0
    · simp [clickPrev, prev_disabled, hp]
      omega
    · have hb : (pos == 0) = false := by simp [hp]
      simp [clickPrev, prev_disabled, hb]
      omega
  · by_cases hc : pos ≥ total - 1
    · simp [clickNext, next_disabled, hc]
      omega
    · simp [clickNext, next_disabled, hc]
      omega

theorem nav_clamped_no_wrap_witness :
    ((2 = 0 → clickPrev 2 = 2) ∧
    (2 = 3 - 1 → clickNext 2 3 = 2) ∧
    clickPrev 2 < 3 ∧ clickNext 2 3 < 3) :=
  nav_clamped_no_wrap 2 3 (by decide) (by decide)

/-- Claim C9: prompt loading fails fatally when the `SR` or `Prompt` column is
missing; non-numeric keys coerce to 0; colliding keys resolve last-write-wins;
and guidance lookup for an absent `sr_id` returns the empty string. -/
theorem load_prompts_contract :
    (∀ t : PromptsCsv,
      (t.columns.contains "SR" && t.columns.contains "Prompt") = false →
        load_prompts t =
          Except.error "prompts.csv must have columns: SR, Prompt") ∧
    (∀ s, coerceInt (Cell.str s) = 0) ∧
    (∀ es k v, dictOfEntries (es ++ [(k, v)]) k = some v) ∧
    (∀ es k, (∀ e ∈ es, e.1 ≠ k) →
      guidance_for (dictOfEntries es) k = "") := by
  refine ⟨?_, ?_, ?_, ?_⟩
  · intro t h
    unfold load_prompts
    rw [h]
    rfl
  · intro s
    rfl
  · intro es k v
    simp [dictOfEntries, List.foldl_append]
  · intro es k h
    suffices hnone : dictOfEntries es k = none by
      simp [guidance_for, hnone]
    have hgen : ∀ (es2 : List (Int × String)) (m : Int → Option String),
        (∀ e ∈ es2, e.1 ≠ k) → m k = none →
        (es2.foldl (fun m e => fun k2 => if k2 = e.1 then some e.2 else m k2)
          m) k = none := by
      intro es2
      induction es2 with
      | nil =>
        intro m _ hm
        exact hm
      | cons e es3 ih =>
        intro m hne hm
        refine ih _ (fun e2 he2 => hne e2 (List.mem_cons_of_mem e he2)) ?_
        have hk : k ≠ e.1 := Ne.symm (hne e (List.mem_cons_self e es3))
        simp [hk, hm]
    exact hgen es _ h rfl

theorem load_prompts_contract_witness :
    load_prompts ⟨["SR"], []⟩ =
      Except.error "prompts.csv must have columns: SR, Prompt" ∧
    coerceInt (Cell.str "abc") = 0 ∧
    dictOfEntries ([(0, "first")] ++ [(0, "second")]) 0 = some "second" ∧
    guidance_for (dictOfEntries [(1, "x")]) 2 = "" :=
  ⟨load_prompts_contract.1 ⟨["SR"], []⟩ (by decide),
   load_prompts_contract.2.1 "abc",
   load_prompts_contract.2.2.1 [(0, "first")] 0 "second",
   load_prompts_contract.2.2.2 [(1, "x")] 2 (by decide)⟩

/-- Claim C10: every save writes exactly the two fields `Poenaru_Decision` and
`Reviewed_At`, and under the partial-update semantics of the remote store any
other column retains its prior value after the write. -/
theorem save_payload_frame (d ts : String) (row : String → String)
    (f : String) (hf : f ∉ ["Poenaru_Decision", "Reviewed_At"]) :
    (savePayload d ts).map Prod.fst = ["Poenaru_Decision", "Reviewed_At"] ∧
    applyFields row (savePayload d ts) f = row f := by
  constructor
  · rfl
  · simp only [List.mem_cons, List.mem_singleton, not_or] at hf
    have hb1 : (f == "Poenaru_Decision") = false :=
      beq_eq_false_iff_ne.mpr hf.1
    have hb2 : (f == "Reviewed_At") = false :=
      beq_eq_false_iff_ne.mpr hf.2.1
    simp [applyFields, savePayload, List.lookup, hb1, hb2]

theorem save_payload_frame_witness :
    (savePayload "Yes" "2024-01-01 10:00:00").map Prod.fst =
      ["Poenaru_Decision", "Reviewed_At"] ∧
    applyFields (fun _ => "old") (savePayload "Yes" "2024-01-01 10:00:00")
      "Title" = (fun _ : String => "old") "Title" :=
  save_payload_frame "Yes" "2024-01-01 10:00:00" (fun _ => "old") "Title"
    (by decide)

/-- Claim C3 counterexample: a response whose two rows both carry a
non-numeric `_row` cell yields a snapshot whose row identifiers are `[0, 0]` —
`fetch_sheet` never deduplicates, so the claimed uniqueness of `_row` across
every snapshot is false. -/
theorem fetch_sheet_dup_rowid_cex :
    ¬ (rowIds (fetch_sheet false
        [⟨Cell.str "t1", Cell.none_, Cell.num 1, Cell.str "",
          Cell.none_, Cell.none_, Cell.str "A"⟩,
         ⟨Cell.str "t2", Cell.none_, Cell.num 2, Cell.str "",
          Cell.none_, Cell.none_, Cell.str "B"⟩])).Nodup := by
  have h : rowIds (fetch_sheet false
      [⟨Cell.str "t1", Cell.none_, Cell.num 1, Cell.str "",
        Cell.none_, Cell.none_, Cell.str "A"⟩,
       ⟨Cell.str "t2", Cell.none_, Cell.num 2, Cell.str "",
        Cell.none_, Cell.none_, Cell.str "B"⟩]) = [0, 0] := rfl
  rw [h]
  decide

/-- Claim C3 (amended): every snapshot returned by `fetch_sheet` is sorted by
`_row` in ascending (non-decreasing) order; and whenever the coerced `_row`
values of the response rows are pairwise distinct, the snapshot contains no
two records with the same row identifier. -/
theorem fetch_sheet_sorted_nodup (flag : Bool) (rows : List RawRecord) :
    List.Sorted (· ≤ ·) (rowIds (fetch_sheet flag rows)) ∧
    ((rows.map (fun r => coerceInt r.row)).Nodup →
      (rowIds (fetch_sheet flag rows)).Nodup) := by
  constructor
  · have hs : (fetch_sheet flag rows).Pairwise
        (fun a b => a.rowId ≤ b.rowId) := by
      cases flag <;> simp [fetch_sheet] <;> exact sorted_sortByRow _
    exact List.pairwise_map.mpr hs
  · intro h
    have hmapped : (rowIds (rows.map normalize)).Nodup := by
      have heq : rowIds (rows.map normalize) =
          rows.map (fun r => coerceInt r.row) := by
        simp [rowIds, List.map_map]
        intro a _
        rfl
      rw [heq]
      exact h
    cases flag
    · have hperm : List.Perm (rowIds (fetch_sheet false rows))
          (rowIds (rows.map normalize)) := by
        simp only [fetch_sheet, rowIds]
        exact (sortByRow_perm (rows.map normalize)).map Record.rowId
      exact hperm.nodup_iff.mpr hmapped
    · have hsub : (rowIds ((rows.map normalize).filter unreviewedP)).Sublist
          (rowIds (rows.map normalize)) :=
        ((rows.map normalize).filter_sublist).map Record.rowId
      have hfil : (rowIds ((rows.map normalize).filter unreviewedP)).Nodup :=
        hmapped.sublist hsub
      have hperm : List.Perm (rowIds (fetch_sheet true rows))
          (rowIds ((rows.map normalize).filter unreviewedP)) := by
        simp only [fetch_sheet, rowIds]
        exact (sortByRow_perm _).map Record.rowId
      exact hperm.nodup_iff.mpr hfil

theorem fetch_sheet_sorted_nodup_witness :
    List.Sorted (· ≤ ·) (rowIds (fetch_sheet false
      [⟨Cell.str "t1", Cell.none_, Cell.num 1, Cell.str "",
        Cell.none_, Cell.none_, Cell.num 2⟩,
       ⟨Cell.str "t2", Cell.none_, Cell.num 1, Cell.str "Yes",
        Cell.none_, Cell.none_, Cell.num 1⟩])) ∧
    (rowIds (fetch_sheet false
      [⟨Cell.str "t1", Cell.none_, Cell.num 1, Cell.str "",
        Cell.none_, Cell.none_, Cell.num 2⟩,
       ⟨Cell.str "t2", Cell.none_, Cell.num 1, Cell.str "Yes",
        Cell.none_, Cell.none_, Cell.num 1⟩])).Nodup :=
  ⟨(fetch_sheet_sorted_nodup false
      [⟨Cell.str "t1", Cell.none_, Cell.num 1, Cell.str "",
        Cell.none_, Cell.none_, Cell.num 2⟩,
       ⟨Cell.str "t2", Cell.none_, Cell.num 1, Cell.str "Yes",
        Cell.none_, Cell.none_, Cell.num 1⟩]).1,
   (fetch_sheet_sorted_nodup false
      [⟨Cell.str "t1", Cell.none_, Cell.num 1, Cell.str "",
        Cell.none_, Cell.none_, Cell.num 2⟩,
       ⟨Cell.str "t2", Cell.none_, Cell.num 1, Cell.str "Yes",
        Cell.none_, Cell.none_, Cell.num 1⟩]).2 (by decide)⟩

/-- Claim C4: for every remote row list, the unreviewed-only fetch equals the
unfiltered fetch of the same rows restricted to the records whose decision,
as a trimmed string, is empty — and is therefore a subset of the unfiltered
fetch. -/
theorem fetch_unreviewed_filter_eq (rows : List RawRecord) :
    fetch_sheet true rows = (fetch_sheet false rows).filter unreviewedP ∧
    fetch_sheet true rows ⊆ fetch_sheet false rows := by
  have heq : (fetch_sheet false rows).filter unreviewedP =
      fetch_sheet true rows := by
    simp only [fetch_sheet]
    exact filter_sortByRow unreviewedP (rows.map normalize)
  refine ⟨heq.symm, ?_⟩
  intro a ha
  rw [← heq] at ha
  exact List.mem_of_mem_filter ha

theorem fetch_unreviewed_filter_eq_witness :
    fetch_sheet true
      [⟨Cell.str "t1", Cell.none_, Cell.num 1, Cell.str "",
        Cell.none_, Cell.none_, Cell.num 2⟩,
       ⟨Cell.str "t2", Cell.none_, Cell.num 1, Cell.str "Yes",
        Cell.none_, Cell.none_, Cell.num 1⟩] =
      (fetch_sheet false
        [⟨Cell.str "t1", Cell.none_, Cell.num 1, Cell.str "",
          Cell.none_, Cell.none_, Cell.num 2⟩,
         ⟨Cell.str "t2", Cell.none_, Cell.num 1, Cell.str "Yes",
          Cell.none_, Cell.none_, Cell.num 1⟩]).filter unreviewedP ∧
    fetch_sheet true
      [⟨Cell.str "t1", Cell.none_, Cell.num 1, Cell.str "",
        Cell.none_, Cell.none_, Cell.num 2⟩,
       ⟨Cell.str "t2", Cell.none_, Cell.num 1, Cell.str "Yes",
        Cell.none_, Cell.none_, Cell.num 1⟩] ⊆
      fetch_sheet false
        [⟨Cell.str "t1", Cell.none_, Cell.num 1, Cell.str "",
          Cell.none_, Cell.none_, Cell.num 2⟩,
         ⟨Cell.str "t2", Cell.none_, Cell.num 1, Cell.str "Yes",
          Cell.none_, Cell.none_, Cell.num 1⟩] :=
  fetch_unreviewed_filter_eq
    [⟨Cell.str "t1", Cell.none_, Cell.num 1, Cell.str "",
      Cell.none_, Cell.none_, Cell.num 2⟩,
     ⟨Cell.str "t2", Cell.none_, Cell.num 1, Cell.str "Yes",
      Cell.none_, Cell.none_, Cell.num 1⟩]

end ScreeningApp
